import Mathlib

/-!
Verification of the search-criterion construction, response parsing and
header decoding core of the `imap-cli` program, shallowly embedded from
`src/imap_cli/search.py` and `src/imap_cli/show.py`.

Python strings are modelled as Lean `String` / `List Char` (a Python `str`
is a sequence of code points).  Python `None`-able arguments are modelled
with `Option`.  Functions that can raise are modelled with `Except`.
-/

namespace ImapCli

/-- Python `str.isspace` for a single character, restricted to the ASCII
whitespace characters (space, tab, linefeed, carriage return, vertical tab,
form feed).  Python additionally treats some Unicode code points as
whitespace; none of the inputs in this development contain them. -/
def pyIsSpace (c : Char) : Bool :=
  c = ' ' ∨ c = '\t' ∨ c = '\n' ∨ c = '\r' ∨ c = '\x0b' ∨ c = '\x0c'

/-- Python `str.split()` with no argument, on a list of characters:
split on runs of whitespace, discarding empty tokens as well as leading
and trailing whitespace. -/
def splitWs (l : List Char) : List (List Char) :=
  let step : Char → List Char × List (List Char) → List Char × List (List Char) :=
    fun c acc =>
      if pyIsSpace c then ([], if acc.1 = [] then acc.2 else acc.1 :: acc.2)
      else (c :: acc.1, acc.2)
  let r := l.foldr step ([], [])
  if r.1 = [] then r.2 else r.1 :: r.2

/-- Python `str.split()` on a `String`, returning `String` tokens. -/
def pySplit (s : String) : List String :=
  (splitWs s.toList).map String.mk

/-- From `search.py`, `escape`: wrap a word in double quotes when it contains a
whitespace character, otherwise return it unchanged
(`'"{}"'.format(word)` is the literal `"` + word + `"`). -/
def escape (word : String) : String :=
  if word.toList.any pyIsSpace then "\"" ++ word ++ "\"" else word

/-- From `search.py`, `combine_search_criterion`: combine a list of criterion
strings under an operator; an operator outside `['AND', 'OR', 'NOT']` is
coerced to `'AND'` (with a non-fatal warning in the source, not modelled). -/
def combine_search_criterion (search_criterion : List String)
    (operator : String) : String :=
  let op := if operator = "AND" ∨ operator = "OR" ∨ operator = "NOT"
            then operator else "AND"
  if op = "AND" then
    "(" ++ String.intercalate " " (search_criterion.map escape) ++ ")"
  else if op = "OR" then
    "OR " ++ String.intercalate " " (search_criterion.map escape)
  else
    "NOT " ++ String.intercalate " " (search_criterion.map escape)

/-- Python `str.upper` restricted to ASCII letters (the tags appearing in
this development are ASCII). -/
def pyUpper (s : String) : String :=
  String.mk (s.toList.map Char.toUpper)

/-- Modelled from the spec: `const.IMAP_SPECIAL_FLAGS`, the recognized IMAP
system flag names (the `const` module is not part of the provided sources;
the spec's Criterion Builder treats a tag matching a recognized IMAP system
flag name as a bare search key, e.g. `SEEN`). -/
def IMAP_SPECIAL_FLAGS : List String :=
  ["ANSWERED", "DELETED", "DRAFT", "FLAGGED", "RECENT", "SEEN"]

/-- A Python `datetime.date` / `datetime.datetime` as far as `%d-%h-%Y`
formatting is concerned.  `datetime` guarantees `1 ≤ month ≤ 12`,
`1 ≤ day ≤ 31` and `1 ≤ year ≤ 9999`. -/
structure PyDate where
  year : Nat
  month : Nat
  day : Nat
deriving DecidableEq, Repr

/-- The C-locale (English) three-letter month abbreviations used by
`strftime` for `%h`. -/
def monthAbbrevs : List String :=
  ["Jan", "Feb", "Mar", "Apr", "May", "Jun",
   "Jul", "Aug", "Sep", "Oct", "Nov", "Dec"]

/-- Zero-padded two-digit rendering of a day number (`strftime` `%d`). -/
def pad2 (n : Nat) : String :=
  if n < 10 then "0" ++ toString n else toString n

/-- Python `datetime.strftime('%d-%h-%Y')` under the C locale: zero-padded
day, three-letter month abbreviation, year. -/
def strftime_dhY (d : PyDate) : String :=
  pad2 d.day ++ "-" ++ monthAbbrevs.getD (d.month - 1) "" ++ "-" ++ toString d.year

/-- From `search.py`, `create_search_criterion_by_date`: a `relative` outside
`['BEFORE', 'ON', 'SINCE']` (including the `None` default) falls back to
`'SINCE'`; when `sent` is true the relative key is prefixed with `SENT`. -/
def create_search_criterion_by_date (d : PyDate) (relative : Option String)
    (sent : Bool) : String :=
  let rel := match relative with
    | some r => if r = "BEFORE" ∨ r = "ON" ∨ r = "SINCE" then r else "SINCE"
    | none => "SINCE"
  (if sent = true then "SENT" else "") ++ rel ++ " " ++ strftime_dhY d

/-- From `search.py`, `create_search_criterion_by_mail_address`: a header name
outside `['BCC', 'CC', 'FROM', 'TO']` falls back to `'FROM'`. -/
def create_search_criterion_by_mail_address (mail_address : String)
    (header_name : String) : String :=
  let h := if header_name = "BCC" ∨ header_name = "CC" ∨
              header_name = "FROM" ∨ header_name = "TO"
           then header_name else "FROM"
  h ++ " \"" ++ mail_address ++ "\""

/-- From `search.py`, `create_search_criterion_by_size`: a `relative` outside
`['LARGER', 'SMALLER']` falls back to `'LARGER'`. -/
def create_search_criterion_by_size (size : String) (relative : String) : String :=
  let rel := if relative = "LARGER" ∨ relative = "SMALLER" then relative else "LARGER"
  rel ++ " \"" ++ size ++ "\""

/-- From `search.py`, `create_search_criterion_by_subject`. -/
def create_search_criterion_by_subject (subject : String) : String :=
  "SUBJECT \"" ++ subject ++ "\""

/-- From `search.py`, `create_search_criteria_by_tag`: the empty tag list yields
the empty string; an upper-cased tag matching a recognized IMAP system flag
is used bare, any other tag becomes `KEYWORD "<tag>"`; several criteria are
parenthesized and space-joined, a single one is returned unwrapped. -/
def create_search_criteria_by_tag (tags : List String) : String :=
  if tags.length = 0 then ""
  else
    let criterion := tags.map (fun tag =>
      if pyUpper tag ∈ IMAP_SPECIAL_FLAGS then pyUpper tag
      else "KEYWORD \"" ++ tag ++ "\"")
    if criterion.length > 1 then
      "(" ++ String.intercalate " " criterion ++ ")"
    else criterion.headD ""

/-- From `search.py`, `create_search_criteria_by_text`. -/
def create_search_criteria_by_text (text : String) : String :=
  "BODY \"" ++ text ++ "\""

/-- From `search.py`, `create_search_criterion_by_uid`. -/
def create_search_criterion_by_uid (uid : String) : String :=
  "UID " ++ uid

/-- From `search.py`, `create_search_criterion`: append one criterion string per
non-`None` input, in the fixed order address, date, tags, text, subject,
size; when no input is given the list collapses to `['ALL']`.  The
`operator` parameter of the source is accepted but unused in the body. -/
def create_search_criterion (address : Option String) (date : Option PyDate)
    (size : Option String) (subject : Option String)
    (tags : Option (List String)) (text : Option String)
    (operator : String) : List String :=
  let _ := operator
  let sc :=
    (match address with
     | some a => [create_search_criterion_by_mail_address a "FROM"]
     | none => []) ++
    (match date with
     | some d => [create_search_criterion_by_date d none false]
     | none => []) ++
    (match tags with
     | some t => [create_search_criteria_by_tag t]
     | none => []) ++
    (match text with
     | some t => [create_search_criteria_by_text t]
     | none => []) ++
    (match subject with
     | some s => [create_search_criterion_by_subject s]
     | none => []) ++
    (match size with
     | some s => [create_search_criterion_by_size s "LARGER"]
     | none => [])
  if sc.length = 0 then ["ALL"] else sc

/-- Anchored tail of the pattern `FLAGS \((?P<flags>[^\)]*)\)` at one
position: succeeds when the text starts with `FLAGS (` and a `)` follows;
the greedy `[^\)]*` group captures exactly up to the first `)`. -/
def flagsAt (l : List Char) : Option (List Char) :=
  if "FLAGS (".toList.isPrefixOf l then
    let rest := l.drop 7
    if rest.contains ')' then some (rest.takeWhile (fun c => c != ')'))
    else none
  else none

/-- Anchored tail of the pattern `UID (?P<uid>[^ ]*)` at one position:
succeeds when the text starts with `UID `; the greedy `[^ ]*` group
captures the following run of non-space characters (possibly empty). -/
def uidAt (l : List Char) : Option (List Char) :=
  if "UID ".toList.isPrefixOf l then
    some ((l.drop 4).takeWhile (fun c => c != ' '))
  else none

/-- The greedy leading `.*` of `re.match`: try the anchored tail at every
position reachable by `.*` — which cannot cross a newline — preferring the
rightmost position (greedy backtracking). -/
def lastSuffixMatch (p : List Char → Option (List Char)) :
    List Char → Option (List Char)
  | [] => p []
  | c :: cs =>
    match (if c != '\n' then lastSuffixMatch p cs else none) with
    | some r => some r
    | none => p (c :: cs)

/-- Model of `re.match` of `FLAGS_RE = '.*FLAGS \((?P<flags>[^\)]*)\)'`, returning
the `flags` capture. -/
def flagsMatch (l : List Char) : Option (List Char) :=
  lastSuffixMatch flagsAt l

/-- Model of `re.match` of `UID_RE = '.*UID (?P<uid>[^ ]*)'`, returning the `uid`
capture. -/
def uidMatch (l : List Char) : Option (List Char) :=
  lastSuffixMatch uidAt l

/-- Model of `re.match` of `MAIL_ID_RE = '^(?P<mail_id>\d+) \('`, returning the
`mail_id` capture: a nonempty run of digits anchored at the start, followed
by a space and an opening parenthesis (`\d` modelled on the ASCII digits;
the status lines of this development are ASCII). -/
def mailIdMatch (l : List Char) : Option (List Char) :=
  let d := l.takeWhile Char.isDigit
  if d.length = 0 then none
  else if (l.drop d.length).take 2 = [' ', '('] then some d
  else none

/-- The per-line record of `fetch_mails_info` before header parsing:
the `flags`, `id` and `uid` entries of the yielded dictionary. -/
structure MailRecordHead where
  flags : List String
  id : String
  uid : String
deriving DecidableEq, Repr

/-- From `search.py`/`show.py`, `fetch_mails_info`, the per-line matching step
(lines 225-234 / 185-194): match the three patterns against the status
line; when any match is `None` the line is skipped (`.ok none`, the
`continue`), otherwise the captures are whitespace-split and their first
tokens taken (an out-of-range `[0]` would raise `IndexError`, modelled as
`.error ()`). -/
def parseStatusLine (line : String) : Except Unit (Option MailRecordHead) :=
  match mailIdMatch line.toList, flagsMatch line.toList, uidMatch line.toList with
  | some mid, some fl, some u =>
    match (splitWs mid).head?, (splitWs u).head? with
    | some i, some uu =>
        .ok (some ⟨(splitWs fl).map String.mk, String.mk i, String.mk uu⟩)
    | _, _ => .error ()
  | _, _, _ => .ok none

/-- From `search.py`/`show.py`, `fetch_mails_info`, lines 236-240 / 196-200: the
raw header text handed to `email.message_from_string` —
`mail_data[1][1:] if mail_data[1].startswith(">From ") else mail_data[1]`. -/
def mailtextOf (s : List Char) : List Char :=
  if ">From ".toList.isPrefixOf s then s.drop 1 else s

/-- A Python value as returned for a fragment by
`email.header.decode_header`: either a `bytes` object (a sequence of byte
values) or a `str`. -/
inductive PyVal where
  | bytes (b : List Nat) : PyVal
  | str (s : String) : PyVal
deriving DecidableEq, Repr

/-- The exceptions relevant to `codecs.decode` here: `TypeError` (the value
is not a bytes-like object) and `LookupError` (unknown encoding). -/
inductive PyExn where
  | typeError : PyExn
  | lookupError : PyExn
deriving DecidableEq, Repr

/-- The Python codec registry, abstracted: a partial map from encoding
names to byte decoders (each decoder already applying the `'ignore'`
error handler, so a registered decoder itself never raises). -/
structure Codecs where
  lookup : String → Option (List Nat → String)

/-- Python `codecs.decode(value, enc, 'ignore')`: an unregistered encoding
name raises `LookupError`; a `str` value handed to a byte decoder raises
`TypeError`; otherwise the registered decoder runs with errors ignored. -/
def codecs_decode (C : Codecs) (v : PyVal) (enc : String) :
    Except PyExn String :=
  match C.lookup enc with
  | none => .error .lookupError
  | some dec =>
    match v with
    | .str _ => .error .typeError
    | .bytes b => .ok (dec b)

/-- Python `encoding or 'utf-8'`: `None` and the empty string (the falsy
values of type `str`) are replaced by `'utf-8'`. -/
def pyOrUtf8 (encoding : Option String) : String :=
  match encoding with
  | none => "utf-8"
  | some s => if s = "" then "utf-8" else s

/-- From `search.py`/`show.py`, `fetch_mails_info`, lines 247-254 / 207-214: one
fragment of the RFC 2047 decode loop —
`try: codecs.decode(value, encoding or 'utf-8', 'ignore')
except TypeError: value`.  Only `TypeError` is caught (keeping the raw
fragment); a `LookupError` from an unknown encoding propagates. -/
def decodeFragmentStep (C : Codecs) (value : PyVal)
    (encoding : Option String) : Except PyExn PyVal :=
  match codecs_decode C value (pyOrUtf8 encoding) with
  | .ok s => .ok (.str s)
  | .error .typeError => .ok value
  | .error .lookupError => .error .lookupError

/-- A byte decoder with the `'ignore'` error handler, modelling the ASCII
subset on which all byte inputs of this development live (on ASCII input
it agrees with Python's `utf-8` and `ascii` decoders). -/
def asciiDecodeIgnore (b : List Nat) : String :=
  String.mk (b.filterMap (fun n => if n < 128 then some (Char.ofNat n) else none))

/-- A concrete codec registry: `utf-8` and `ascii` are registered, any
other name is unknown (as in Python, where e.g. `bogus` raises
`LookupError`). -/
def stdCodecs : Codecs :=
  ⟨fun e => if e = "utf-8" ∨ e = "ascii" then some asciiDecodeIgnore else none⟩

/-- The `search_criterion` argument of `fetch_uids`: Python `None`, a raw
string, or a structured list of criterion strings. -/
inductive SearchCriterionArg where
  | null : SearchCriterionArg
  | str (s : String) : SearchCriterionArg
  | list (l : List String) : SearchCriterionArg
deriving DecidableEq, Repr

/-- From `search.py`, `fetch_uids`, lines 279-283: the criterion string actually
sent to `SEARCH`.  `None` becomes the literal `ALL`; a list is rendered by
`combine_search_criterion` with its default operator `'AND'`; a raw string
passes through unchanged. -/
def search_fetch_uids_request : SearchCriterionArg → String
  | .null => "ALL"
  | .str s => s
  | .list l => combine_search_criterion l "AND"

/-- From `show.py`, `fetch_uids`, lines 239-243: the criterion string actually
sent to `SEARCH`.  `None` becomes the literal `ALL`; a list is joined with
single spaces (`' '.join(search_criterion)`); a raw string passes through
unchanged. -/
def show_fetch_uids_request : SearchCriterionArg → String
  | .null => "ALL"
  | .str s => s
  | .list l => String.intercalate " " l

/-- Python `lst[-n:]` for an integer `n`: for `n > 0` the last `n` elements
(all of them when fewer exist), for `n = 0` the whole list (since `-0` is
`0`), for `n < 0` the slice `lst[(-n):]`. -/
def pySliceLast (n : Int) (l : List String) : List String :=
  if 0 < n then l.drop (l.length - n.toNat)
  else l.drop (-n).toNat

/-- From `search.py`/`show.py`, `fetch_uids`, lines 290-296 / 250-256: the value
returned after the `SEARCH` call.  `ok` is the result of the comparison
`status == const.STATUS_OK`; `data0` is `data_bytes[0].decode('utf-8')`.
On success the UID text is split on whitespace and, when a limit is given,
sliced with `[-limit:]`; on failure the function falls through and returns
`None`. -/
def fetch_uids_result (ok : Bool) (data0 : String) (limit : Option Int) :
    Option (List String) :=
  if ok then
    some (match limit with
          | none => pySplit data0
          | some n => pySliceLast n (pySplit data0))
  else none

end ImapCli

namespace ImapCli

/-- C8: `escape w` returns `w` unchanged exactly when `w` has no whitespace
character; a word with whitespace comes back wrapped in double quotes
(one quote prepended, one appended, nothing else changed). -/
theorem escape_spec (w : String) :
    (escape w = w ↔ ¬ (w.toList.any pyIsSpace = true)) ∧
    (w.toList.any pyIsSpace = true → escape w = "\"" ++ w ++ "\"") := by
  constructor
  · constructor
    · intro h hs
      have hq : escape w = "\"" ++ w ++ "\"" := by
        unfold escape; rw [if_pos hs]
      rw [hq] at h
      have hlen := congrArg String.length h
      rw [String.length_append, String.length_append] at hlen
      have h1 : ("\"" : String).length = 1 := rfl
      rw [h1] at hlen
      omega
    · intro h
      unfold escape; rw [if_neg h]
  · intro hs
    unfold escape; rw [if_pos hs]

/-- C8 witness: a word with a space is quoted, a word without is unchanged. -/
theorem escape_spec_witness :
    escape "a b" = "\"a b\"" ∧ escape "alice@example.org" = "alice@example.org" :=
  ⟨(escape_spec "a b").2 (by decide),
   ((escape_spec "alice@example.org").1).2 (by decide)⟩

/-- C4: for every criterion list `L`, `combine_search_criterion L "AND"` is
`(` ++ the escaped elements joined by single spaces ++ `)`, and every
operator outside `{AND, OR, NOT}` behaves exactly as `AND`. -/
theorem combine_search_criterion_and_spec (L : List String) :
    combine_search_criterion L "AND" =
      "(" ++ String.intercalate " " (L.map escape) ++ ")" ∧
    (∀ op : String, ¬ (op = "AND" ∨ op = "OR" ∨ op = "NOT") →
      combine_search_criterion L op = combine_search_criterion L "AND") := by
  constructor
  · simp [combine_search_criterion]
  · intro op hop
    simp [combine_search_criterion, hop]

/-- C4 witness: concrete evaluation with an invalid operator coerced to AND. -/
theorem combine_search_criterion_and_spec_witness :
    combine_search_criterion ["FROM", "a b"] "AND" =
      "(" ++ String.intercalate " " (["FROM", "a b"].map escape) ++ ")" ∧
    combine_search_criterion ["FROM", "a b"] "XOR" =
      combine_search_criterion ["FROM", "a b"] "AND" :=
  ⟨(combine_search_criterion_and_spec ["FROM", "a b"]).1,
   (combine_search_criterion_and_spec ["FROM", "a b"]).2 "XOR" (by decide)⟩

/-- Every month abbreviation in the C-locale table has three letters. -/
theorem monthAbbrevs_length_three : ∀ M ∈ monthAbbrevs, M.length = 3 := by
  decide

/-- Two-digit days render as exactly two characters. -/
theorem pad2_length_two : ∀ n < 100, (pad2 n).length = 2 := by
  decide

/-- C5: on 2024-01-05 with defaults the date criterion is exactly
`SINCE 05-Jan-2024`, and `SENTSINCE 05-Jan-2024` with `sent` true; on every
valid date the formatted portion is `DD-Mon-YYYY` with a three-letter
English month abbreviation, and every `relative` outside
`{BEFORE, ON, SINCE}` behaves as `SINCE`. -/
theorem create_search_criterion_by_date_spec :
    create_search_criterion_by_date ⟨2024, 1, 5⟩ none false = "SINCE 05-Jan-2024" ∧
    create_search_criterion_by_date ⟨2024, 1, 5⟩ none true = "SENTSINCE 05-Jan-2024" ∧
    (∀ d : PyDate, 1 ≤ d.month → d.month ≤ 12 → 1 ≤ d.day → d.day ≤ 31 →
      ∃ M, M ∈ monthAbbrevs ∧ M.length = 3 ∧ (pad2 d.day).length = 2 ∧
        strftime_dhY d = pad2 d.day ++ "-" ++ M ++ "-" ++ toString d.year) ∧
    (∀ (d : PyDate) (rel : Option String) (sent : Bool),
      ¬ (rel = some "BEFORE" ∨ rel = some "ON" ∨ rel = some "SINCE") →
      create_search_criterion_by_date d rel sent =
        create_search_criterion_by_date d (some "SINCE") sent) := by
  refine ⟨by decide, by decide, ?_, ?_⟩
  · intro d h1 h2 h3 h4
    refine ⟨monthAbbrevs.getD (d.month - 1) "", ?_, ?_, ?_, rfl⟩
    · have hlt : d.month - 1 < monthAbbrevs.length := by
        simp only [monthAbbrevs, List.length]
        omega
      rw [List.getD_eq_getElem _ _ hlt]
      exact List.getElem_mem hlt
    · have hlt : d.month - 1 < monthAbbrevs.length := by
        simp only [monthAbbrevs, List.length]
        omega
      refine monthAbbrevs_length_three _ ?_
      rw [List.getD_eq_getElem _ _ hlt]
      exact List.getElem_mem hlt
    · exact pad2_length_two d.day (by omega)
  · intro d rel sent h
    cases rel with
    | none => rfl
    | some r =>
      have hr : ¬ (r = "BEFORE" ∨ r = "ON" ∨ r = "SINCE") := by
        intro hc
        rcases hc with hc | hc | hc <;> subst hc <;>
          simp at h
      simp [create_search_criterion_by_date, hr]

/-- C5 witness: the universally quantified parts applied at 2024-01-05 and
an invalid relative value. -/
theorem create_search_criterion_by_date_spec_witness :
    (∃ M, M ∈ monthAbbrevs ∧ M.length = 3 ∧ (pad2 5).length = 2 ∧
      strftime_dhY ⟨2024, 1, 5⟩ = pad2 5 ++ "-" ++ M ++ "-" ++ toString 2024) ∧
    create_search_criterion_by_date ⟨2024, 1, 5⟩ (some "AFTER") false =
      create_search_criterion_by_date ⟨2024, 1, 5⟩ (some "SINCE") false :=
  ⟨create_search_criterion_by_date_spec.2.2.1 ⟨2024, 1, 5⟩
      (by decide) (by decide) (by decide) (by decide),
   create_search_criterion_by_date_spec.2.2.2 ⟨2024, 1, 5⟩ (some "AFTER") false
      (by decide)⟩

/-- C1 counterexample: on `['FROM', 'alice@example.org']` the claimed
rendering `(FROM "alice@example.org")` is produced by neither `fetch_uids`:
`search.py` renders `(FROM alice@example.org)` (no quotes — `escape` quotes
only words containing whitespace), and `show.py` joins the list with spaces
instead of using the Criterion Builder, sending `FROM alice@example.org`. -/
theorem fetch_uids_request_counterexample :
    search_fetch_uids_request (.list ["FROM", "alice@example.org"]) =
      "(FROM alice@example.org)" ∧
    "(FROM alice@example.org)" ≠ "(FROM \"alice@example.org\")" ∧
    show_fetch_uids_request (.list ["FROM", "alice@example.org"]) =
      "FROM alice@example.org" ∧
    "FROM alice@example.org" ≠ "(FROM \"alice@example.org\")" := by
  refine ⟨by decide, by decide, rfl, by decide⟩

/-- C1 (amended): in `search.py`'s `fetch_uids` a structured criterion list
is rendered through `combine_search_criterion` with AND semantics — for
`['FROM', 'alice@example.org']` that is `(FROM alice@example.org)`, the
address staying unquoted because it contains no whitespace — and a null
criterion uses the literal `ALL` in both files; `show.py`'s `fetch_uids`
instead joins the list elements with single spaces. -/
theorem fetch_uids_request_spec :
    (∀ l, search_fetch_uids_request (.list l) = combine_search_criterion l "AND") ∧
    search_fetch_uids_request (.list ["FROM", "alice@example.org"]) =
      "(FROM alice@example.org)" ∧
    search_fetch_uids_request .null = "ALL" ∧
    show_fetch_uids_request .null = "ALL" ∧
    (∀ l, show_fetch_uids_request (.list l) = String.intercalate " " l) :=
  ⟨fun _ => rfl, by decide, rfl, rfl, fun _ => rfl⟩

/-- C6: on a successful `SEARCH`, a positive `limit` `n` yields exactly the
last `n` whitespace-separated tokens of the raw result text (all of them
when fewer than `n` exist): the result is a suffix of the token list of
length `min n (number of tokens)`; with no limit all tokens are returned. -/
theorem fetch_uids_limit_spec (data0 : String) (n : Int) (h : 0 < n) :
    fetch_uids_result true data0 (some n) =
      some ((pySplit data0).drop ((pySplit data0).length - n.toNat)) ∧
    ((pySplit data0).drop ((pySplit data0).length - n.toNat)).length =
      min n.toNat (pySplit data0).length ∧
    ((pySplit data0).drop ((pySplit data0).length - n.toNat)) <:+ pySplit data0 ∧
    fetch_uids_result true data0 none = some (pySplit data0) := by
  refine ⟨?_, ?_, List.drop_suffix _ _, rfl⟩
  · simp [fetch_uids_result, pySliceLast, h]
  · rw [List.length_drop]
    omega

/-- C6 witness: with limit 3 on a four-token result, the last three tokens. -/
theorem fetch_uids_limit_spec_witness :
    fetch_uids_result true "1 2 3 4" (some 3) =
      some ((pySplit "1 2 3 4").drop ((pySplit "1 2 3 4").length - (3 : Int).toNat)) ∧
    fetch_uids_result true "1 2 3 4" (some 3) = some ["2", "3", "4"] :=
  ⟨(fetch_uids_limit_spec "1 2 3 4" 3 (by decide)).1, by decide⟩

/-- C9: on a successful `SEARCH`, `limit = 0` returns all
whitespace-separated tokens of the result (a Python slice `[-0:]` is the
whole list), not zero tokens — the same as passing no limit. -/
theorem fetch_uids_limit_zero_spec (data0 : String) :
    fetch_uids_result true data0 (some 0) = some (pySplit data0) ∧
    fetch_uids_result true data0 (some 0) = fetch_uids_result true data0 none ∧
    fetch_uids_result true "7 8 9" (some 0) = some ["7", "8", "9"] := by
  refine ⟨?_, ?_, by decide⟩ <;>
    simp [fetch_uids_result, pySliceLast]

/-- C2 counterexample: on the status line `12 (FLAGS (\Seen) UID 345)` the
record's uid is `345)` — the `[^ ]*` capture of the UID pattern runs to the
next space, so the trailing `)` is included — not `345` as claimed. -/
theorem parseStatusLine_counterexample :
    parseStatusLine "12 (FLAGS (\\Seen) UID 345)" =
      .ok (some ⟨["\\Seen"], "12", "345)"⟩) ∧
    ("345)" : String) ≠ "345" := by
  exact ⟨by rfl, by decide⟩

/-- C2 (amended): on the status line `12 (FLAGS (\Seen) UID 345)` the
Response Parser produces a record with sequence id `12`, flag set `{\Seen}`
and uid `345)` (the UID capture extends to the next space, so it keeps the
trailing parenthesis); and on every status line on which any of the three
pattern matches fails, no record at all is produced for that line — the
line is silently skipped with no partial record and no error. -/
theorem parseStatusLine_spec :
    parseStatusLine "12 (FLAGS (\\Seen) UID 345)" =
      .ok (some ⟨["\\Seen"], "12", "345)"⟩) ∧
    (∀ line : String,
      mailIdMatch line.toList = none ∨ flagsMatch line.toList = none ∨
        uidMatch line.toList = none →
      parseStatusLine line = .ok none) := by
  refine ⟨by rfl, ?_⟩
  intro line h
  cases hm : mailIdMatch line.toList <;>
    cases hf : flagsMatch line.toList <;>
    cases hu : uidMatch line.toList <;>
    simp_all [parseStatusLine]

/-- C2 witness: the empty line matches none of the patterns and is skipped. -/
theorem parseStatusLine_spec_witness :
    parseStatusLine "" = Except.ok none :=
  parseStatusLine_spec.2 "" (Or.inl (by decide))

/-- C3 counterexample: on a header text starting with `>From `, only the
first character (the `>`) is removed — `>From a` becomes `From a`, not `a`
as full removal of the six-character `>From ` artifact would give. -/
theorem mailtextOf_counterexample :
    mailtextOf ">From a".toList = "From a".toList ∧
    "From a".toList ≠ "a".toList := by
  exact ⟨by decide, by decide⟩

/-- C3 (amended): when the raw header text begins with `>From `, only its
first character (the `>`) is dropped, after which the text no longer begins
with `>From ` (it begins with `From `); texts not beginning with `>From `
are passed through unchanged. -/
theorem mailtextOf_spec :
    (∀ s : List Char, ">From ".toList.isPrefixOf s →
      mailtextOf s = s.drop 1 ∧
      ¬ (">From ".toList.isPrefixOf (mailtextOf s) = true)) ∧
    (∀ s : List Char, ¬ (">From ".toList.isPrefixOf s = true) →
      mailtextOf s = s) := by
  constructor
  · intro s h
    have hm : mailtextOf s = s.drop 1 := by
      unfold mailtextOf; rw [if_pos h]
    refine ⟨hm, ?_⟩
    rw [hm]
    cases s with
    | nil => simp [List.isPrefixOf] at h
    | cons c t =>
      simp only [List.drop_succ_cons, List.drop_zero]
      simp [List.isPrefixOf] at h
      cases t with
      | nil => simp [List.prefix_nil] at h
      | cons c' t' =>
        simp [List.isPrefixOf] at h ⊢
        intro hc
        exact absurd (h.2.1.trans hc.symm) (by decide)
  · intro s h
    unfold mailtextOf; rw [if_neg h]

/-- C3 witness: the two cases applied at concrete header texts. -/
theorem mailtextOf_spec_witness :
    (mailtextOf ">From x".toList = ">From x".toList.drop 1 ∧
      ¬ (">From ".toList.isPrefixOf (mailtextOf ">From x".toList) = true)) ∧
    mailtextOf "Subject: hi".toList = "Subject: hi".toList :=
  ⟨mailtextOf_spec.1 ">From x".toList (by decide),
   mailtextOf_spec.2 "Subject: hi".toList (by decide)⟩

/-- C7 counterexample: a fragment whose declared encoding is unknown to the
codec registry (e.g. `bogus`) is a decode failure on which the raw fragment
is NOT kept: the `LookupError` is not caught by the `except TypeError`
handler and escapes. -/
theorem decodeFragmentStep_counterexample :
    decodeFragmentStep stdCodecs (.bytes [104, 105]) (some "bogus") =
      .error .lookupError ∧
    (Except.error PyExn.lookupError : Except PyExn PyVal) ≠
      .ok (.bytes [104, 105]) := by
  exact ⟨rfl, by simp⟩

/-- C7 (amended): each fragment is decoded with its declared encoding,
`utf-8` when none (or an empty one) is declared; a `TypeError` from the
decode (a non-bytes fragment) is caught and the raw fragment value kept
unmodified; but a `LookupError` from an unknown declared encoding is not
caught and propagates out of the decode step. -/
theorem decodeFragmentStep_spec :
    (∀ (C : Codecs) (v : PyVal),
      decodeFragmentStep C v none = decodeFragmentStep C v (some "utf-8")) ∧
    (∀ (C : Codecs) (v : PyVal) (e : Option String),
      codecs_decode C v (pyOrUtf8 e) = .error .typeError →
      decodeFragmentStep C v e = .ok v) ∧
    (∀ (C : Codecs) (v : PyVal) (e : Option String) (s : String),
      codecs_decode C v (pyOrUtf8 e) = .ok s →
      decodeFragmentStep C v e = .ok (.str s)) ∧
    (∀ (C : Codecs) (b : List Nat) (e : Option String),
      C.lookup (pyOrUtf8 e) = none →
      decodeFragmentStep C (.bytes b) e = .error .lookupError) := by
  refine ⟨fun C v => rfl, ?_, ?_, ?_⟩
  · intro C v e h
    unfold decodeFragmentStep
    rw [h]
  · intro C v e s h
    unfold decodeFragmentStep
    rw [h]
  · intro C b e h
    unfold decodeFragmentStep codecs_decode
    rw [h]

/-- C7 witness: a `str` fragment is kept raw (TypeError caught), bytes with
no declared encoding decode as utf-8, and an unknown encoding propagates
`LookupError`. -/
theorem decodeFragmentStep_spec_witness :
    decodeFragmentStep stdCodecs (.str "hi") (some "utf-8") = .ok (.str "hi") ∧
    decodeFragmentStep stdCodecs (.bytes [104, 105]) none = .ok (.str "hi") ∧
    decodeFragmentStep stdCodecs (.bytes [104]) (some "unknown-cs") =
      .error .lookupError :=
  ⟨decodeFragmentStep_spec.2.1 stdCodecs (.str "hi") (some "utf-8") (by rfl),
   decodeFragmentStep_spec.2.2.1 stdCodecs (.bytes [104, 105]) none "hi" (by rfl),
   decodeFragmentStep_spec.2.2.2 stdCodecs [104] (some "unknown-cs") (by rfl)⟩

/-- C10: with `tags = []` and all other inputs `None`,
`create_search_criterion` returns the one-element list `['']` (the empty
string produced by `create_search_criteria_by_tag` on no tags), not
`['ALL']`: the collapse to the literal `ALL` only happens when every
optional input is `None`. -/
theorem create_search_criterion_empty_tags_spec :
    (∀ tags, create_search_criterion none none none none (some tags) none "AND" =
      [create_search_criteria_by_tag tags]) ∧
    create_search_criteria_by_tag [] = "" ∧
    create_search_criterion none none none none (some []) none "AND" = [""] ∧
    ([""] : List String) ≠ ["ALL"] ∧
    create_search_criterion none none none none none none "AND" = ["ALL"] := by
  refine ⟨fun tags => rfl, rfl, rfl, by decide, rfl⟩

end ImapCli
